import Mathlib

/-!
Verification of the `VeryUsefulDownloadingTool` Flask application (`src/app.py`).

Strings are modelled as `List Char` (`Str`).  The three regular expressions
`YT_WATCH_RE`, `YT_PLAYLIST_RE` and `YT_VALID_RE` of `app.py` are embedded as
executable scanners that follow Python `re.search` semantics for those
particular patterns (leftmost starting position wins; within `YT_WATCH_RE` the
greedy `.*` selects the rightmost `\bv=` candidate on the same line; `.` does
not cross a newline; matching of the ASCII literals is case-insensitive, which
is what `re.I` amounts to on the claims' ASCII inputs).
-/

namespace App

abbrev Str := List Char

/-- Python `str.strip()` whitespace set (ASCII part, which is what the
application's inputs use): space, tab, newline, carriage return, vertical
tab, form feed.  This is also Python's `\s` class used by `re.sub(r"\s+")`. -/
def pyWs (c : Char) : Bool :=
  c = ' ' || c = '\t' || c = '\n' || c = '\r' || c = '\x0b' || c = '\x0c'

/-- Python `str.strip()`: drop whitespace from both ends. -/
def pyStrip (s : Str) : Str :=
  ((s.dropWhile pyWs).reverse.dropWhile pyWs).reverse

/-- The regex character class `[a-zA-Z0-9_-]` of the video-id groups. -/
def idChar (c : Char) : Bool :=
  c.isAlphanum || c = '_' || c = '-'

/-- Python regex word character (`\w` over the ASCII inputs at hand),
used by the `\b` boundary assertions in the patterns. -/
def wordChar (c : Char) : Bool :=
  c.isAlphanum || c = '_'

/-- Case-insensitive literal match returning the remainder of the input
after the literal, or `none` if the literal does not match here. -/
def ciDrop : Str → Str → Option Str
  | [], s => some s
  | _ :: _, [] => none
  | p :: ps, c :: cs => if p.toLower = c.toLower then ciDrop ps cs else none

/-- Case-insensitive `startsWith` test. -/
def ciStartsWith : Str → Str → Bool
  | [], _ => true
  | _ :: _, [] => false
  | p :: ps, c :: cs => (p.toLower = c.toLower) && ciStartsWith ps cs

/-- Match exactly `n` id-class characters (`[a-zA-Z0-9_-]{n}`), returning them. -/
def takeId : Nat → Str → Option Str
  | 0, _ => some []
  | _ + 1, [] => none
  | n + 1, c :: cs => if idChar c then (takeId n cs).map (fun r => c :: r) else none

/-- The `.*\bv=([a-zA-Z0-9_-]{11})` part of `YT_WATCH_RE` after the literal
`youtube.com/watch?`: the greedy `.*` (which cannot cross a newline) makes the
regex use the rightmost position carrying a word boundary, `v=` (the `v`
case-insensitive) and then eleven id characters.  `prev` is the character
immediately before the current position (initially the `?` of the literal),
needed for the `\b` assertion. -/
def findLastV (prev : Char) : Str → Option Str
  | [] => none
  | c :: rest =>
    if c = '\n' then none
    else
      match findLastV c rest with
      | some r => some r
      | none =>
        if wordChar prev = false && c.toLower = 'v' then
          match rest with
          | '=' :: rest2 => takeId 11 rest2
          | _ => none
        else none

def watchLit : Str := "youtube.com/watch?".data
def beLit : Str := "youtu.be/".data
def shortsLit : Str := "youtube.com/shorts/".data
def playlistLit : Str := "youtube.com/playlist?".data
def listEqLit : Str := "list=".data
def canonLit : Str := "https://www.youtube.com/watch?v=".data

/-- First alternative of `YT_WATCH_RE`: `youtube\.com/watch\?.*\bv=(id{11})`. -/
def watchAltA (s : Str) : Option Str :=
  match ciDrop watchLit s with
  | some rest => findLastV '?' rest
  | none => none

/-- Second alternative of `YT_WATCH_RE`: `youtu\.be/(id{11})`. -/
def watchAltB (s : Str) : Option Str :=
  match ciDrop beLit s with
  | some rest => takeId 11 rest
  | none => none

/-- Third alternative of `YT_WATCH_RE`: `youtube\.com/shorts/(id{11})`. -/
def watchAltC (s : Str) : Option Str :=
  match ciDrop shortsLit s with
  | some rest => takeId 11 rest
  | none => none

/-- Matching of `YT_WATCH_RE` anchored at the current position: the alternatives
are tried in the pattern's order (their leading literals are mutually
exclusive at a fixed position). -/
def watchAt (s : Str) : Option Str :=
  match watchAltA s with
  | some r => some r
  | none =>
    match watchAltB s with
    | some r => some r
    | none => watchAltC s

/-- Model of `YT_WATCH_RE.search`: scan start positions left to right and return the
captured 11-character video id of the leftmost match.  (The pattern cannot
match at the empty suffix, so stopping at `[]` is faithful.) -/
def watchSearch : Str → Option Str
  | [] => none
  | c :: rest =>
    match watchAt (c :: rest) with
    | some r => some r
    | none => watchSearch rest

/-- The `.*\blist=` part of `YT_PLAYLIST_RE` after its literal: is there a
position (not beyond a newline) with a word boundary followed by `list=`? -/
def listEqAfter (prev : Char) : Str → Bool
  | [] => false
  | c :: rest =>
    if c = '\n' then false
    else ((wordChar prev = false) && ciStartsWith listEqLit (c :: rest)) || listEqAfter c rest

/-- Matching of `YT_PLAYLIST_RE` (`youtube\.com/playlist\?.*\blist=`) anchored at the
current position. -/
def playlistAt (s : Str) : Bool :=
  match ciDrop playlistLit s with
  | some rest => listEqAfter '?' rest
  | none => false

/-- Model of `bool(YT_PLAYLIST_RE.search s)`. -/
def playlistSearch : Str → Bool
  | [] => false
  | c :: rest => playlistAt (c :: rest) || playlistSearch rest

/-- Matching of `YT_VALID_RE` (`youtube\.com/(?:watch\?|shorts/)|youtu\.be/|youtube\.com/playlist\?`)
anchored at the current position. -/
def validAt (s : Str) : Bool :=
  ciStartsWith watchLit s || ciStartsWith shortsLit s ||
    ciStartsWith beLit s || ciStartsWith playlistLit s

/-- Model of `bool(YT_VALID_RE.search s)`. -/
def validSearch : Str → Bool
  | [] => false
  | c :: rest => validAt (c :: rest) || validSearch rest

/-- Model of `_normalize_youtube_url` (app.py lines 70-84). -/
def normalize_youtube_url (url : Str) : Option Str :=
  if pyStrip url = [] then none
  else
    let u := pyStrip url
    if playlistSearch u then none
    else
      match watchSearch u with
      | some vid => some (canonLit ++ vid)
      | none => some u

/-- Model of `_is_playlist_url` (app.py lines 87-91). -/
def is_playlist_url (url : Str) : Bool :=
  if pyStrip url = [] then false else playlistSearch (pyStrip url)

/-- Model of `_is_youtube_url` (app.py lines 94-98). -/
def is_youtube_url (url : Str) : Bool :=
  if pyStrip url = [] then false else validSearch (pyStrip url)

def errEnterUrl : Str := "Please enter a URL.".data
def errValidUrl : Str := "Please enter a valid YouTube URL.".data

/-- Python's `normalized if normalized else url` (both `None` and the empty
string are falsy). -/
def pickUrl (n : Option Str) (u : Str) : Str :=
  match n with
  | none => u
  | some s => if s = [] then u else s

/-- Model of `_prepare_url` (app.py lines 101-114), with the early returns rendered as
nested conditionals. -/
def prepare_url (url : Str) : Option Str × Option Str :=
  let u := pyStrip url
  if u = [] then (none, some errEnterUrl)
  else if is_youtube_url u then
    if is_playlist_url u then (some u, none)
    else (some (pickUrl (normalize_youtube_url u) u), none)
  else (none, some errValidUrl)

/-- Model of `_video_id_from_url` (app.py lines 117-124): only `None`-ness (emptiness)
is checked before stripping and searching. -/
def video_id_from_url (url : Str) : Option Str :=
  if url = [] then none else watchSearch (pyStrip url)

/-! ### Filename derivation (`_title_for_filename`, app.py lines 127-160) -/

/-- The parts of a yt-dlp `info` dict read by `_title_for_filename`.  A Python
`info` of `None` is modelled as `none`; an empty dict behaves identically to
`some` with all fields `none` (both make every `.get` return `None` and both
take the id-only return path). -/
structure MediaInfo where
  vid : Option Str
  fulltitle : Option Str
  title : Option Str
deriving DecidableEq

/-- Python string truthiness: `None` and `""` are falsy. -/
def truthyStr : Option Str → Option Str
  | none => none
  | some s => if s = [] then none else some s

/-- Model of `(info.get("fulltitle") or info.get("title") or "")`. -/
def rawTitle (i : MediaInfo) : Str :=
  match truthyStr i.fulltitle with
  | some s => s
  | none =>
    match truthyStr i.title with
    | some s => s
    | none => []

/-- The Unicode exclamation-mark variants removed from the title
(`"!"`, U+FF01, U+01C3, U+203C). -/
def bangChar (c : Char) : Bool :=
  c = '!' || c = '！' || c = 'ǃ' || c = '‼'

def removeBangs (s : Str) : Str := s.filter (fun c => bangChar c = false)

/-- Helper for `collapseWs`: squeeze runs of spaces to a single space. -/
def squeezeSp : Str → Str
  | [] => []
  | [c] => [c]
  | a :: b :: rest =>
    if a = ' ' && b = ' ' then squeezeSp (b :: rest)
    else a :: squeezeSp (b :: rest)

/-- Model of `re.sub(r"\s+", " ", s)`: every maximal run of whitespace becomes one
space. -/
def collapseWs (s : Str) : Str :=
  squeezeSp (s.map (fun c => if pyWs c then ' ' else c))

/-- The class `[<>:"/\\|?*\x00-\x1f]` removed by the sanitizer. -/
def illegalChar (c : Char) : Bool :=
  c = '<' || c = '>' || c = ':' || c = '"' || c = '/' || c = '\\' ||
    c = '|' || c = '?' || c = '*' || decide (c.toNat ≤ 31)

def videoLit : Str := "video".data
def bangLit : Str := "!".data
def fwBangLit : Str := "！".data
def naLit : Str := "NA".data

/-- Model of `(info or {}).get("id") if info else None`. -/
def infoIdOf (info : Option MediaInfo) : Option Str :=
  match info with
  | none => none
  | some i => i.vid

/-- Lines 133-138 of app.py: pick the fallback id.  The URL-derived id is
preferred; if it is falsy or shorter than 5 characters the metadata id is
consulted; if the result is falsy, strips to `"!"` or `""`, or is shorter
than 5 characters, the literal `"video"` is used; the choice is stripped. -/
def chooseId (info : Option MediaInfo) (fb : Option Str) : Str :=
  let v1 : Option Str :=
    match fb with
    | none => infoIdOf info
    | some s => if s = [] || s.length < 5 then infoIdOf info else some s
  let v2 : Str :=
    match v1 with
    | none => videoLit
    | some s =>
      if s = [] || pyStrip s = bangLit || pyStrip s = [] || s.length < 5 then videoLit
      else s
  pyStrip v2

/-- Model of `name.startswith("!") or name.startswith("！")`. -/
def startsBang (name : Str) : Bool :=
  match name with
  | [] => false
  | c :: _ => c = '!' || c = '！'

/-- Model of `_title_for_filename` (app.py lines 127-160). -/
def title_for_filename (info : Option MediaInfo) (ext : Str) (fb : Option Str) : Str :=
  let vid := chooseId info fb
  match info with
  | none => vid ++ '.' :: ext
  | some i =>
    let raw := pyStrip (collapseWs (removeBangs (pyStrip (rawTitle i))))
    if raw = [] || raw = naLit || raw.length ≤ 1 then vid ++ '.' :: ext
    else
      let safe0 := pyStrip (collapseWs (raw.filter (fun c => illegalChar c = false)))
      let safe := safe0.take 200
      if safe = [] || safe = bangLit || safe = fwBangLit || safe = naLit then
        vid ++ '.' :: ext
      else
        let name := safe ++ '.' :: ext
        if startsBang name then vid ++ '.' :: ext else name

/-! ### Pending downloads and the token endpoint -/

/-- A pending entry: `(file_path, download_filename)`. -/
abbrev Entry := Str × Str

/-- Model of `_PENDING_DOWNLOADS` (app.py line 55), modelled as an association list;
`dict` assignment corresponds to consing a fresh key in front, `dict.pop` to
removing every pair with the key. -/
abbrev PendingMap := List (Str × Entry)

def lookupTok (tok : Str) : PendingMap → Option Entry
  | [] => none
  | (k, e) :: rest => if k = tok then some e else lookupTok tok rest

/-- Model of `_PENDING_DOWNLOADS.pop(token, None)`: return the entry (if any) and the
map without that key. -/
def consumeToken (tok : Str) (m : PendingMap) : Option Entry × PendingMap :=
  match lookupTok tok m with
  | none => (none, m)
  | some e => (some e, m.filter (fun p => decide (p.1 ≠ tok)))

/-- The HTTP responses produced by the download handlers.  `badRequest`
carries status 400, `notFound` status 404, `jsonLink` is the 200 JSON body
`{"download_url": <token url>, "filename": <name>}`, `fileStream` the 200
attachment response with its `Content-Disposition` filename and
`Content-Length`. -/
inductive Resp where
  | badRequest (msg : Str)
  | notFound (msg : Str)
  | jsonLink (tok : Str) (filename : Str)
  | fileStream (dispName : Str) (size : Nat)
deriving DecidableEq

def errTokenUsed : Str := "Download link invalid or already used.".data
def errFileGone : Str := "File no longer available.".data
def errDownloadFailed : Str := "Download failed. Check the URL and try again.".data

/-- Model of `download_by_token` (app.py lines 337-375): pop the token first, then
check the file.  `isfile` and `fsize` stand for the filesystem queries
`os.path.isfile` and `os.path.getsize`. -/
def download_by_token (tok : Str) (m : PendingMap)
    (isfile : Str → Bool) (fsize : Str → Nat) : Resp × PendingMap :=
  match consumeToken tok m with
  | (none, m2) => (Resp.notFound errTokenUsed, m2)
  | (some e, m2) =>
    if e.1 = [] || isfile e.1 = false then (Resp.notFound errFileGone, m2)
    else (Resp.fileStream e.2 (fsize e.1), m2)

/-! ### yt-dlp options (`_download`, app.py lines 163-207) -/

/-- The option dict built by `_download` for the `YoutubeDL` call, projected
to the fields the spec talks about. -/
structure YdlOpts where
  playlistItems : Option Str
  fmtSel : Str
  audioPost : Bool
  cookiefile : Option Str
  mergeFmt : Option Str
deriving DecidableEq

/-- Lines 173-195 of app.py: construct the yt-dlp options.  `cookieOnDisk`
stands for `os.path.isfile(cookiefile_path)`. -/
def buildOpts (url : Str) (asAud : Bool) (cookieArg : Option Str) (cookieOnDisk : Bool) :
    YdlOpts :=
  let cf : Option Str :=
    match cookieArg with
    | some p => if p ≠ [] && cookieOnDisk then some p else none
    | none => none
  let pli : Option Str := if is_playlist_url url then some "1".data else none
  if asAud then
    { playlistItems := pli, fmtSel := "bestaudio/best".data, audioPost := true,
      cookiefile := cf, mergeFmt := none }
  else
    { playlistItems := pli,
      fmtSel := "bestvideo[ext=mp4]+bestaudio[ext=m4a]/best[ext=mp4]/best".data,
      audioPost := false, cookiefile := cf, mergeFmt := some "mp4".data }

/-! ### Auth gate (`require_auth`, app.py lines 231-239) -/

inductive AuthResp where
  | redirectLogin (nextUrl : Str)
  | unauthorized (msg : Str)
deriving DecidableEq

def loginLit : Str := "login".data
def logoutLit : Str := "logout".data
def getLit : Str := "GET".data
def authMsg : Str := "Authentication required.".data

/-- Model of `require_auth`: `none` means the request proceeds to its endpoint;
`some` is the interception (a redirect for GET, a 401 JSON body otherwise). -/
def require_auth (endp : Str) (authed : Bool) (method : Str) (requrl : Str) :
    Option AuthResp :=
  if endp = loginLit || endp = logoutLit then none
  else if authed then none
  else if method = getLit then some (AuthResp.redirectLogin requrl)
  else some (AuthResp.unauthorized authMsg)

/-! ### The download request handler (`_handle_download`, app.py lines 247-324) -/

/-- The request data `_handle_download` reads: the `url` form field (absent
modelled as `[]`, matching `request.form.get("url") or ""`), the optional
uploaded cookie file's contents (present only when the multipart field exists
with a non-empty filename, line 256), and the `return_url` form/query value. -/
structure Req where
  url : Str
  cookiesUpload : Option Str
  returnUrl : Option Str

/-- Model of `if return_url and str(return_url).strip() in ("1", "true", "yes")`. -/
def wantsUrl (r : Option Str) : Bool :=
  match r with
  | none => false
  | some s =>
    !s.isEmpty &&
      (pyStrip s = "1".data || pyStrip s = "true".data || pyStrip s = "yes".data)

/-- The downloaded file produced by a successful `_download` call. -/
structure DlFile where
  path : Str
  size : Nat
deriving DecidableEq

/-- Outcome of one `_handle_download` request.  `persisted` is the content of
`PERSISTENT_COOKIE_PATH` after the request, `tmpCreated` records whether an
uploaded-cookie temporary file was created, `tmpRemains` whether it is still
on disk afterwards, `extractCalled` whether `_download` (the yt-dlp
invocation) was reached. -/
structure HandleOut where
  resp : Resp
  pending : PendingMap
  persisted : Option Str
  tmpCreated : Bool
  tmpRemains : Bool
  extractCalled : Bool

def audioName : Str := "audio.mp3".data
def videoName : Str := "video.mp4".data

/-- Model of `_handle_download` (app.py lines 247-324) as a state transformer.  The
external effects are oracles: `dl` is the result of the `_download` call
(`none` = failure or missing file), `infoRes` the metadata it returned
(bound but never used afterwards, as in the source), `copyOk` whether
`shutil.copy2` into the persistent cookie path succeeds (line 270; an
`OSError` is swallowed), `unlinkOk` whether the `finally`-block `os.unlink`
of the uploaded temporary succeeds (line 276; an `OSError` is swallowed),
and `newTok` the fresh `secrets.token_urlsafe(16)` value. -/
def handle_download (asAud : Bool) (rq : Req) (pending0 : PendingMap)
    (persisted0 : Option Str) (dl : Option DlFile) (infoRes : Option MediaInfo)
    (copyOk : Bool) (unlinkOk : Bool) (newTok : Str) : HandleOut :=
  match (prepare_url rq.url).2 with
  | some err =>
    { resp := Resp.badRequest err, pending := pending0, persisted := persisted0,
      tmpCreated := false, tmpRemains := false, extractCalled := false }
  | none =>
    let tmpC := rq.cookiesUpload.isSome
    let persisted1 :=
      if dl.isSome && tmpC && copyOk then rq.cookiesUpload else persisted0
    let tmpR := tmpC && !unlinkOk
    match dl with
    | none =>
      { resp := Resp.badRequest errDownloadFailed, pending := pending0,
        persisted := persisted1, tmpCreated := tmpC, tmpRemains := tmpR,
        extractCalled := true }
    | some f =>
      let dname := if asAud then audioName else videoName
      if wantsUrl rq.returnUrl then
        { resp := Resp.jsonLink newTok dname,
          pending := (newTok, (f.path, dname)) :: pending0,
          persisted := persisted1, tmpCreated := tmpC, tmpRemains := tmpR,
          extractCalled := true }
      else
        { resp := Resp.fileStream dname f.size, pending := pending0,
          persisted := persisted1, tmpCreated := tmpC, tmpRemains := tmpR,
          extractCalled := true }

end App

namespace App

/-! ### Support lemmas about `pyStrip` and the scanners -/

theorem dropWhile_dw (p : Char → Bool) (l : Str) :
    (l.dropWhile p).dropWhile p = l.dropWhile p := by
  induction l with
  | nil => rfl
  | cons c rest ih =>
    by_cases h : p c
    · simp [List.dropWhile_cons, h, ih]
    · simp [List.dropWhile_cons, h]

theorem dropWhile_head_false (p : Char → Bool) (l : Str) (c : Char) (t : Str)
    (h : l.dropWhile p = c :: t) : p c = false := by
  induction l with
  | nil => simp [List.dropWhile] at h
  | cons a rest ih =>
    by_cases ha : p a
    · rw [List.dropWhile_cons_of_pos ha] at h
      exact ih h
    · rw [List.dropWhile_cons_of_neg ha] at h
      cases h
      simpa using ha

theorem dropWhile_of_head_false (p : Char → Bool) (c : Char) (t : Str)
    (h : p c = false) : (c :: t).dropWhile p = c :: t := by
  simp [List.dropWhile_cons, h]

theorem getLast?_dropWhile (p : Char → Bool) (l : Str)
    (h : l.dropWhile p ≠ []) : (l.dropWhile p).getLast? = l.getLast? := by
  induction l with
  | nil => simp [List.dropWhile] at h
  | cons a rest ih =>
    by_cases ha : p a
    · rw [List.dropWhile_cons_of_pos ha] at h ⊢
      have hrest : rest ≠ [] := by
        intro he
        rw [he] at h
        exact h rfl
      rw [ih h]
      cases rest with
      | nil => exact absurd rfl hrest
      | cons b t => simp [List.getLast?_cons_cons]
    · rw [List.dropWhile_cons_of_neg ha]

theorem pyStrip_idem (s : Str) : pyStrip (pyStrip s) = pyStrip s := by
  unfold pyStrip
  set a := s.dropWhile pyWs with ha
  set b := a.reverse.dropWhile pyWs with hb
  have step1 : b.reverse.dropWhile pyWs = b.reverse := by
    cases hc : b.reverse with
    | nil => rfl
    | cons c t =>
      have hbne : b ≠ [] := by
        intro he
        rw [he] at hc
        simp at hc
      have hlast : b.getLast? = a.reverse.getLast? := by
        rw [hb]
        exact getLast?_dropWhile pyWs a.reverse (by rw [← hb]; exact hbne)
      have hheadrev : b.reverse.head? = b.getLast? := by
        simp [List.head?_reverse]
      have hrevlast : a.reverse.getLast? = a.head? := by
        simp [List.getLast?_reverse]
      have hchead : b.reverse.head? = some c := by rw [hc]; rfl
      have hahead : a.head? = some c := by
        rw [← hrevlast, ← hlast, ← hheadrev, hchead]
      have hac : ∃ t2, a = c :: t2 := by
        cases hcc : a with
        | nil => rw [hcc] at hahead; simp at hahead
        | cons x y =>
          rw [hcc] at hahead
          simp at hahead
          exact ⟨y, by rw [hahead]⟩
      obtain ⟨t2, ht2⟩ := hac
      have hpc : pyWs c = false := by
        apply dropWhile_head_false pyWs s c t2
        rw [← ha, ht2]
      exact dropWhile_of_head_false pyWs c t hpc
  rw [step1]
  rw [List.reverse_reverse]
  rw [hb, dropWhile_dw]

theorem pyStrip_nil : pyStrip [] = [] := rfl

theorem ciDrop_startsWith (pat s r : Str) (h : ciDrop pat s = some r) :
    ciStartsWith pat s = true := by
  induction pat generalizing s with
  | nil => cases s <;> rfl
  | cons p ps ih =>
    cases s with
    | nil => simp [ciDrop] at h
    | cons c cs =>
      by_cases hpc : p.toLower = c.toLower
      · rw [ciDrop, if_pos hpc] at h
        simp [ciStartsWith, hpc, ih cs h]
      · rw [ciDrop, if_neg hpc] at h
        exact absurd h (by simp)

theorem watchAt_validAt (s : Str) (r : Str) (h : watchAt s = some r) :
    validAt s = true := by
  unfold watchAt at h
  unfold validAt
  cases hA : watchAltA s with
  | some x =>
    unfold watchAltA at hA
    cases hd : ciDrop watchLit s with
    | none => rw [hd] at hA; simp at hA
    | some rest => simp [ciDrop_startsWith watchLit s rest hd]
  | none =>
    rw [hA] at h
    cases hB : watchAltB s with
    | some x =>
      unfold watchAltB at hB
      cases hd : ciDrop beLit s with
      | none => rw [hd] at hB; simp at hB
      | some rest => simp [ciDrop_startsWith beLit s rest hd]
    | none =>
      rw [hB] at h
      unfold watchAltC at h
      cases hd : ciDrop shortsLit s with
      | none => rw [hd] at h; simp at h
      | some rest => simp [ciDrop_startsWith shortsLit s rest hd]

theorem watchSearch_validSearch (s : Str) (r : Str) (h : watchSearch s = some r) :
    validSearch s = true := by
  induction s with
  | nil => simp [watchSearch] at h
  | cons c rest ih =>
    rw [watchSearch] at h
    rw [validSearch]
    cases hA : watchAt (c :: rest) with
    | some x => simp [watchAt_validAt (c :: rest) x hA]
    | none =>
      rw [hA] at h
      simp [ih h]

theorem playlistAt_validAt (s : Str) (h : playlistAt s = true) :
    validAt s = true := by
  unfold playlistAt at h
  unfold validAt
  cases hd : ciDrop playlistLit s with
  | none => rw [hd] at h; simp at h
  | some rest => simp [ciDrop_startsWith playlistLit s rest hd]

theorem playlistSearch_validSearch (s : Str) (h : playlistSearch s = true) :
    validSearch s = true := by
  induction s with
  | nil => simp [playlistSearch] at h
  | cons c rest ih =>
    rw [playlistSearch] at h
    rw [validSearch]
    rcases Bool.or_eq_true_iff.mp h with h1 | h1
    · simp [playlistAt_validAt (c :: rest) h1]
    · simp [ih h1]

theorem is_youtube_url_pyStrip (s : Str) :
    is_youtube_url (pyStrip s) = is_youtube_url s := by
  unfold is_youtube_url
  rw [pyStrip_idem]

theorem is_playlist_url_pyStrip (s : Str) :
    is_playlist_url (pyStrip s) = is_playlist_url s := by
  unfold is_playlist_url
  rw [pyStrip_idem]

/-! ### Claim theorems -/

/-- C1: every input whose (stripped) form matches the single-video or
short-form part of `YT_WATCH_RE` with an 11-character id, and is not a
playlist URL, is prepared to exactly
`https://www.youtube.com/watch?v=<id>` with no error — all other query
parameters are discarded. -/
theorem c1_normalize_single_video (s vid : Str)
    (hpl : playlistSearch (pyStrip s) = false)
    (hw : watchSearch (pyStrip s) = some vid) :
    prepare_url s = (some (canonLit ++ vid), none) := by
  have hne : pyStrip s ≠ [] := by
    intro he
    rw [he] at hw
    simp [watchSearch] at hw
  have hyt : is_youtube_url (pyStrip s) = true := by
    rw [is_youtube_url, pyStrip_idem, if_neg hne]
    exact watchSearch_validSearch (pyStrip s) vid hw
  have hpl2 : is_playlist_url (pyStrip s) = false := by
    rw [is_playlist_url, pyStrip_idem, if_neg hne]
    exact hpl
  have hnorm : normalize_youtube_url (pyStrip s) = some (canonLit ++ vid) := by
    rw [normalize_youtube_url, pyStrip_idem, if_neg hne]
    simp only [hpl, Bool.false_eq_true, if_false, hw]
  have hcv : canonLit ++ vid ≠ [] := by
    simp [canonLit]
  simp only [prepare_url, if_neg hne, hyt, if_true, hpl2, Bool.false_eq_true,
    if_false, hnorm, pickUrl, if_neg hcv]

/-- Witness for C1 at the spec's two example URLs. -/
theorem c1_normalize_single_video_witness :
    prepare_url "https://youtu.be/dQw4w9WgXcQ?t=30".data =
      (some "https://www.youtube.com/watch?v=dQw4w9WgXcQ".data, none) ∧
    prepare_url "https://www.youtube.com/watch?v=dQw4w9WgXcQ&list=PL123&index=3".data =
      (some "https://www.youtube.com/watch?v=dQw4w9WgXcQ".data, none) := by
  constructor
  · rw [c1_normalize_single_video "https://youtu.be/dQw4w9WgXcQ?t=30".data
      "dQw4w9WgXcQ".data (by decide) (by decide)]
    decide
  · rw [c1_normalize_single_video
      "https://www.youtube.com/watch?v=dQw4w9WgXcQ&list=PL123&index=3".data
      "dQw4w9WgXcQ".data (by decide) (by decide)]
    decide

/-- C10: `_prepare_url` always returns exactly one of a URL and an error:
either `(some url, none)` or `(none, some msg)` with a non-empty message. -/
theorem c10_prepare_url_exclusive (s : Str) :
    ((prepare_url s).1.isSome = true ∧ (prepare_url s).2 = none) ∨
    ((prepare_url s).1 = none ∧
      ∃ m, (prepare_url s).2 = some m ∧ m.isEmpty = false) := by
  by_cases h0 : pyStrip s = []
  · right
    refine ⟨?_, errEnterUrl, ?_, by decide⟩ <;> simp [prepare_url, h0]
  · by_cases h1 : is_youtube_url (pyStrip s) = true
    · by_cases h2 : is_playlist_url (pyStrip s) = true
      · left
        constructor <;> simp [prepare_url, h0, h1, h2]
      · left
        constructor <;> simp [prepare_url, h0, h1, h2]
    · right
      refine ⟨?_, errValidUrl, ?_, by decide⟩ <;> simp [prepare_url, h0, h1]

/-- C2 fails as stated: a YouTube-shaped watch URL with a malformed
(non-11-character) video id is not rejected; `_prepare_url` passes it through
unchanged with no error, so extraction is attempted for it. -/
theorem c2_counterexample :
    prepare_url "https://www.youtube.com/watch?v=abc".data =
      (some "https://www.youtube.com/watch?v=abc".data, none) := by decide

/-- C2 (amended): for every input not recognized by `YT_VALID_RE`
(no watch/shorts/youtu.be/playlist marker) — which includes empty and
whitespace-only strings and unrelated domains but not YouTube-shaped URLs
with malformed ids — `_prepare_url` rejects with the exact message
(`Please enter a URL.` for empty/whitespace input, otherwise
`Please enter a valid YouTube URL.`), produces no URL, and the download
handler never reaches the extraction call. -/
theorem c2_reject_non_youtube (s : Str) (h : is_youtube_url s = false) :
    prepare_url s =
      (if pyStrip s = [] then ((none : Option Str), some errEnterUrl)
       else (none, some errValidUrl)) ∧
    ∀ (asAud : Bool) (up ru : Option Str) (pending0 : PendingMap)
      (persisted0 : Option Str) (dl : Option DlFile) (infoRes : Option MediaInfo)
      (copyOk unlinkOk : Bool) (newTok : Str),
      (handle_download asAud ⟨s, up, ru⟩ pending0 persisted0 dl infoRes copyOk
        unlinkOk newTok).extractCalled = false := by
  have hprep : prepare_url s =
      (if pyStrip s = [] then ((none : Option Str), some errEnterUrl)
       else (none, some errValidUrl)) := by
    by_cases h0 : pyStrip s = []
    · simp [prepare_url, h0]
    · have hv : is_youtube_url (pyStrip s) = false := by
        rw [is_youtube_url_pyStrip]
        exact h
      simp [prepare_url, h0, hv]
  refine ⟨hprep, ?_⟩
  intro asAud up ru pending0 persisted0 dl infoRes copyOk unlinkOk newTok
  unfold handle_download
  by_cases h0 : pyStrip s = [] <;> simp [hprep, h0]

/-- Witness for C2 (amended) at the spec's example `https://example.com`. -/
theorem c2_reject_non_youtube_witness :
    prepare_url "https://example.com".data = (none, some errValidUrl) ∧
    (handle_download false ⟨"https://example.com".data, none, none⟩ [] none none
      none true true "tok".data).extractCalled = false := by
  have h := c2_reject_non_youtube "https://example.com".data (by decide)
  refine ⟨?_, h.2 false none none [] none none none true true "tok".data⟩
  rw [h.1]
  decide

/-- C3: the code violates the claim.  Contrary to the function's own comment
("Use only URL-derived id for fallback"), `_title_for_filename` falls back to
the metadata id field when no URL-derived id is available, and its guard only
catches the exact string `"!"`: a metadata record with id `"NA   "` (length 5,
stripping to `"NA"`) and no usable title makes it return `"NA.mp4"`, a name
the claim (and the spec) says is never produced. -/
theorem c3_metadata_id_na_eval :
    title_for_filename (some ⟨some "NA   ".data, none, none⟩) "mp4".data none =
      "NA.mp4".data := by decide

/-- Helper for C4: after removing every pair with the consumed key, lookup of
that key fails. -/
theorem lookupTok_filter_self (tok : Str) (m : PendingMap) :
    lookupTok tok (m.filter (fun p => decide (p.1 ≠ tok))) = none := by
  induction m with
  | nil => rfl
  | cons kv rest ih =>
    simp only [decide_not] at ih ⊢
    by_cases h : kv.1 = tok
    · simp [List.filter_cons, h, ih]
    · simp [List.filter_cons, h, lookupTok, ih]

/-- C4: token consumption is single-use: once `pop` has returned an entry for
a token, a second `pop` of the same token returns `none`, and a second GET of
`/download/<token>` answers 404 `Download link invalid or already used.`. -/
theorem c4_token_single_use (tok : Str) (m : PendingMap) (e : Entry)
    (isf : Str → Bool) (sz : Str → Nat)
    (h : (consumeToken tok m).1 = some e) :
    (consumeToken tok (consumeToken tok m).2).1 = none ∧
    (download_by_token tok (download_by_token tok m isf sz).2 isf sz).1 =
      Resp.notFound errTokenUsed := by
  have hl : lookupTok tok m = some e := by
    unfold consumeToken at h
    cases hc : lookupTok tok m with
    | none => rw [hc] at h; simp at h
    | some x =>
      rw [hc] at h
      simp at h
      rw [h]
  have hcm : consumeToken tok m =
      (some e, m.filter (fun p => decide (p.1 ≠ tok))) := by
    unfold consumeToken
    rw [hl]
  have hnone : (consumeToken tok (consumeToken tok m).2).1 = none := by
    rw [hcm]
    unfold consumeToken
    rw [lookupTok_filter_self]
  refine ⟨hnone, ?_⟩
  have hd2 : (download_by_token tok m isf sz).2 =
      m.filter (fun p => decide (p.1 ≠ tok)) := by
    unfold download_by_token
    rw [hcm]
    dsimp only
    split <;> rfl
  rw [hd2]
  unfold download_by_token consumeToken
  rw [lookupTok_filter_self]

/-- Witness for C4 on a one-entry pending map. -/
theorem c4_token_single_use_witness :
    (consumeToken "t".data (consumeToken "t".data
      [("t".data, ("p".data, "video.mp4".data))]).2).1 = none ∧
    (download_by_token "t".data (download_by_token "t".data
      [("t".data, ("p".data, "video.mp4".data))] (fun _ => true) (fun _ => 7)).2
      (fun _ => true) (fun _ => 7)).1 = Resp.notFound errTokenUsed :=
  c4_token_single_use "t".data [("t".data, ("p".data, "video.mp4".data))]
    ("p".data, "video.mp4".data) (fun _ => true) (fun _ => 7) (by decide)

/-- C5 fails as stated: URL preparation is not the identity on playlist
inputs, because `_prepare_url` strips surrounding whitespace first.  A
playlist URL with a leading space matches the playlist pattern but is
returned stripped, not unchanged. -/
theorem c5_counterexample :
    prepare_url " https://www.youtube.com/playlist?list=PL123".data =
      (some "https://www.youtube.com/playlist?list=PL123".data, none) ∧
    decide (prepare_url " https://www.youtube.com/playlist?list=PL123".data =
      (some " https://www.youtube.com/playlist?list=PL123".data, none)) = false := by
  constructor
  · decide
  · decide

/-- C5 (amended): for every playlist-pattern input, preparation returns the
whitespace-stripped input unchanged otherwise (so it is the identity on
inputs without surrounding whitespace) with no error, and the yt-dlp options
built for that URL set `playlist_items = "1"` (first item only). -/
theorem c5_playlist_first_item (s : Str) (asAud : Bool) (cookieArg : Option Str)
    (cOnDisk : Bool) (h : is_playlist_url s = true) :
    prepare_url s = (some (pyStrip s), none) ∧
    (buildOpts (pyStrip s) asAud cookieArg cOnDisk).playlistItems = some "1".data ∧
    (pyStrip s = s → prepare_url s = (some s, none)) := by
  have hne : pyStrip s ≠ [] := by
    intro he
    rw [is_playlist_url, he] at h
    simp at h
  have hps : playlistSearch (pyStrip s) = true := by
    rw [is_playlist_url, if_neg hne] at h
    exact h
  have hyt : is_youtube_url (pyStrip s) = true := by
    rw [is_youtube_url, pyStrip_idem, if_neg hne]
    exact playlistSearch_validSearch (pyStrip s) hps
  have hpl2 : is_playlist_url (pyStrip s) = true := by
    rw [is_playlist_url_pyStrip]
    exact h
  have hprep : prepare_url s = (some (pyStrip s), none) := by
    simp only [prepare_url, if_neg hne, hyt, if_true, hpl2]
  refine ⟨hprep, ?_, ?_⟩
  · cases asAud <;> simp [buildOpts, hpl2]
  · intro hid
    rw [hid] at hprep
    exact hprep

/-- Witness for C5 (amended) on a concrete playlist URL. -/
theorem c5_playlist_first_item_witness :
    prepare_url "https://www.youtube.com/playlist?list=PL123".data =
      (some "https://www.youtube.com/playlist?list=PL123".data, none) ∧
    (buildOpts (pyStrip "https://www.youtube.com/playlist?list=PL123".data)
      false none false).playlistItems = some "1".data := by
  have h := c5_playlist_first_item "https://www.youtube.com/playlist?list=PL123".data
    false none false (by decide)
  exact ⟨h.2.2 (by decide), h.2.1⟩

/-- C6: the persistent cookie file is overwritten exactly when validation
passed, extraction succeeded, an uploaded credential was present and the copy
did not raise; otherwise it is untouched.  The uploaded temporary is removed
afterwards regardless of the extraction outcome (whenever its `os.unlink`
itself succeeds), and a failing copy (`copyOk = false`) is swallowed: the
response is the same as with a successful copy. -/
theorem c6_cookie_persistence (asAud : Bool) (rq : Req) (pending0 : PendingMap)
    (persisted0 : Option Str) (dl : Option DlFile) (infoRes : Option MediaInfo)
    (copyOk : Bool) (newTok : Str) :
    (handle_download asAud rq pending0 persisted0 dl infoRes copyOk true
      newTok).persisted =
      (if ((prepare_url rq.url).2.isNone && dl.isSome && rq.cookiesUpload.isSome
          && copyOk) = true
       then rq.cookiesUpload else persisted0) ∧
    (handle_download asAud rq pending0 persisted0 dl infoRes copyOk true
      newTok).tmpRemains = false ∧
    (handle_download asAud rq pending0 persisted0 dl infoRes false true
      newTok).resp =
      (handle_download asAud rq pending0 persisted0 dl infoRes true true
      newTok).resp := by
  unfold handle_download
  cases hp : (prepare_url rq.url).2 with
  | some err => simp [hp]
  | none =>
    cases dl with
    | none => simp [hp]
    | some f =>
      by_cases hw : wantsUrl rq.returnUrl = true <;> simp [hp, hw]

/-- C7: an unauthenticated GET to an endpoint other than login/logout is
redirected to the login page carrying the original URL; an unauthenticated
non-GET request gets the 401 JSON interception instead of a redirect; login
and logout are never intercepted, nor is any authenticated request. -/
theorem c7_auth_gate (endp m requrl : Str) (a : Bool)
    (h1 : ¬ endp = loginLit) (h2 : ¬ endp = logoutLit) (h3 : ¬ m = getLit) :
    require_auth endp false getLit requrl = some (AuthResp.redirectLogin requrl) ∧
    require_auth endp false m requrl = some (AuthResp.unauthorized authMsg) ∧
    require_auth loginLit a m requrl = none ∧
    require_auth logoutLit a m requrl = none ∧
    require_auth endp true m requrl = none := by
  unfold require_auth
  simp [h1, h2, h3]

/-- Witness for C7 at a protected endpoint and a POST request. -/
theorem c7_auth_gate_witness :
    require_auth "index".data false getLit "http://h/x".data =
      some (AuthResp.redirectLogin "http://h/x".data) ∧
    require_auth "index".data false "POST".data "http://h/x".data =
      some (AuthResp.unauthorized authMsg) ∧
    require_auth loginLit true "POST".data "http://h/x".data = none ∧
    require_auth logoutLit true "POST".data "http://h/x".data = none ∧
    require_auth "index".data true "POST".data "http://h/x".data = none :=
  c7_auth_gate "index".data "POST".data "http://h/x".data true
    (by decide) (by decide) (by decide)

/-- C8: when URL validation fails, `_handle_download` answers 400 with the
validation message and nothing else happens: the pending map, the persistent
cookie file, and the temporary-file state are untouched, and the extraction
call is never reached. -/
theorem c8_validation_no_side_effects (asAud : Bool) (rq : Req)
    (pending0 : PendingMap) (persisted0 : Option Str) (dl : Option DlFile)
    (infoRes : Option MediaInfo) (copyOk unlinkOk : Bool) (newTok : Str)
    (msg : Str) (h : (prepare_url rq.url).2 = some msg) :
    handle_download asAud rq pending0 persisted0 dl infoRes copyOk unlinkOk
      newTok =
      { resp := Resp.badRequest msg, pending := pending0,
        persisted := persisted0, tmpCreated := false, tmpRemains := false,
        extractCalled := false } := by
  unfold handle_download
  rw [h]

/-- Witness for C8 on a non-YouTube URL. -/
theorem c8_validation_no_side_effects_witness :
    handle_download false ⟨"https://example.com".data, some "cookie".data,
        some "1".data⟩ [] (some "old".data) (some ⟨"p".data, 7⟩) none true true
        "tok".data =
      { resp := Resp.badRequest errValidUrl, pending := [],
        persisted := some "old".data, tmpCreated := false, tmpRemains := false,
        extractCalled := false } :=
  c8_validation_no_side_effects false
    ⟨"https://example.com".data, some "cookie".data, some "1".data⟩ []
    (some "old".data) (some ⟨"p".data, 7⟩) none true true "tok".data
    errValidUrl (by decide)

/-- C9: on every successful download the display filename is exactly
`audio.mp3` (audio) or `video.mp4` (video): it is what the immediate path
puts into `Content-Disposition` and what the deferred path stores with the
token and returns in the JSON `filename` field, independently of the
extraction metadata, the input URL and every other request datum;
`_title_for_filename` plays no part in it. -/
theorem c9_fixed_download_name (asAud : Bool) (rq : Req) (pending0 : PendingMap)
    (persisted0 : Option Str) (f : DlFile) (infoRes : Option MediaInfo)
    (copyOk unlinkOk : Bool) (newTok : Str)
    (h : (prepare_url rq.url).2 = none) :
    (handle_download asAud rq pending0 persisted0 (some f) infoRes copyOk
      unlinkOk newTok).resp =
      (if wantsUrl rq.returnUrl then
        Resp.jsonLink newTok (if asAud then audioName else videoName)
      else Resp.fileStream (if asAud then audioName else videoName) f.size) ∧
    (handle_download asAud rq pending0 persisted0 (some f) infoRes copyOk
      unlinkOk newTok).pending =
      (if wantsUrl rq.returnUrl then
        (newTok, (f.path, if asAud then audioName else videoName)) :: pending0
      else pending0) := by
  unfold handle_download
  rw [h]
  by_cases hw : wantsUrl rq.returnUrl = true <;> simp [hw]

/-- Witness for C9: an audio request via the deferred (`return_url=1`) path
stores and reports `audio.mp3`. -/
theorem c9_fixed_download_name_witness :
    (handle_download true ⟨"https://youtu.be/dQw4w9WgXcQ".data, none,
      some "1".data⟩ [] none (some ⟨"p".data, 7⟩) none true true
      "tok".data).resp = Resp.jsonLink "tok".data audioName ∧
    (handle_download true ⟨"https://youtu.be/dQw4w9WgXcQ".data, none,
      some "1".data⟩ [] none (some ⟨"p".data, 7⟩) none true true
      "tok".data).pending = [("tok".data, ("p".data, audioName))] := by
  have h := c9_fixed_download_name true
    ⟨"https://youtu.be/dQw4w9WgXcQ".data, none, some "1".data⟩ [] none
    ⟨"p".data, 7⟩ none true true "tok".data (by decide)
  constructor
  · rw [h.1]
    decide
  · rw [h.2]
    decide

end App
